import Mathlib

/-!
Verification development for the kindling repository (getlantern/kindling).

The repository is a client-side HTTP transport library that races several
circumvention transports (domain fronting, smart dialing, DNS tunnelling,
AMP cache) against a single request.  This file gives a shallow embedding
of the transport registry (`kindling.go`), the destination-address
normalisation of the race transport (`race_transport.go`), and a model of
the race engine described by the specification, and proves the frozen
claims about them.
-/

namespace Kindling

/-! ## Registry model, from `kindling.go` (the version declaring the
`Transport` interface with `Name`, `MaxLength` and `NewRoundTripper`).

A `namedTransport` holds a name, a maximum request-body length (`0` means
no limit; Go `int`, so modelled as `Int`) and a round-tripper generator.
The generator is an opaque function value in Go; it is modelled as an
opaque `Nat` handle, since no claim inspects it beyond identity. -/

structure NamedTransport where
  name : String
  maxLength : Int
  rtg : Nat
deriving Repr, DecidableEq

/-- Embeds `newTransport` from `kindling.go`. -/
def newTransport (name : String) (maxLength : Int) (rtg : Nat) : NamedTransport :=
  { name := name, maxLength := maxLength, rtg := rtg }

/-- Embeds `kindling.ReplaceTransport` from `kindling.go`: walk the
transport slice in order, replace the first entry whose name matches with
`newTransport(name, tr.MaxLength(), rt)`, keeping every other entry; if no
entry matches, return the error `Could not find matching transport: <name>`
(built by `fmt.Errorf` in the source). -/
def replaceTransport : List NamedTransport → String → Nat → Except String (List NamedTransport)
  | [], nm, _ => .error ("Could not find matching transport: " ++ nm)
  | t :: ts, nm, g =>
    if t.name = nm then .ok (newTransport nm t.maxLength g :: ts)
    else
      match replaceTransport ts nm g with
      | .ok rest => .ok (t :: rest)
      | .error e => .error e

/-! ## Client construction and options, from `kindling.go`.

The Go registry is a slice of `Transport` interface values, which can in
principle hold a nil interface value; an entry is therefore modelled as
`Option NamedTransport`, with `none` standing for a nil entry.  External
collaborators (`fronted.Fronted`, `dnstt.DNSTT`, `amp.Client`, the smart
dialer) are opaque; a nil-able collaborator is an `Option Nat` handle. -/

structure KindlingState where
  transports : List (Option NamedTransport)
  appName : String
deriving Repr, DecidableEq

/-- The configuration options of `kindling.go`, one constructor per option
builder relevant to the registry.  `domainFronting none` models
`WithDomainFronting(nil)`, and so on; `transport` models `WithTransport`;
`proxyless none` models the case where the smart dialer fails to build
(in which case `WithProxyless` appends nothing). -/
inductive OptionSpec where
  | domainFronting (f : Option Nat)
  | dnsTunnel (d : Option Nat)
  | ampCache (c : Option Nat)
  | transport (t : Option NamedTransport)
  | proxyless (d : Option Nat)
  | logWriter
  | panicListener
deriving Repr, DecidableEq

/-- Priority of each option, from `kindling.go`: `priorityLogWriter = 0`,
`priorityPanicListener = 1`, ordinary options `1000`, and `emptyOption`
(returned by `WithDomainFronting`, `WithDNSTunnel` and `WithAMPCache` when
handed a nil collaborator) has priority `0`. -/
def optionPriority : OptionSpec → Int
  | .logWriter => 0
  | .panicListener => 1
  | .domainFronting none => 0
  | .dnsTunnel none => 0
  | .ampCache none => 0
  | _ => 1000

/-- Application of one option to the client state, from `kindling.go`.
`WithDomainFronting`, `WithDNSTunnel` and `WithAMPCache` check their
collaborator for nil at construction time and degrade to `emptyOption`
(whose `apply` does nothing); otherwise they defer to `WithTransport`
with a freshly built named transport (`fronted`/`dnstt` with maxLength 0,
`amp` with maxLength 6000).  `WithTransport` checks its argument for nil
at application time and appends it to the registry otherwise.
`WithLogWriter` and `WithPanicListener` do not touch the registry. -/
def applyOption (o : OptionSpec) (k : KindlingState) : KindlingState :=
  match o with
  | .domainFronting none => k
  | .domainFronting (some f) =>
      { k with transports := k.transports ++ [some (newTransport "fronted" 0 f)] }
  | .dnsTunnel none => k
  | .dnsTunnel (some d) =>
      { k with transports := k.transports ++ [some (newTransport "dnstt" 0 d)] }
  | .ampCache none => k
  | .ampCache (some c) =>
      { k with transports := k.transports ++ [some (newTransport "amp" 6000 c)] }
  | .transport none => k
  | .transport (some t) => { k with transports := k.transports ++ [some t] }
  | .proxyless none => k
  | .proxyless (some d) =>
      { k with transports := k.transports ++ [some (newTransport "smart" 0 d)] }
  | .logWriter => k
  | .panicListener => k

/-- Insert into a list already sorted by priority (model of the
`sort.Sort(byPriority(options))` step; Go's sort is unstable, and no claim
depends on the order among equal priorities). -/
def insertByPriority (o : OptionSpec) : List OptionSpec → List OptionSpec
  | [] => [o]
  | x :: xs =>
    if optionPriority o ≤ optionPriority x then o :: x :: xs
    else x :: insertByPriority o xs

/-- Sort options by ascending priority, from `kindling.go`. -/
def sortByPriority : List OptionSpec → List OptionSpec
  | [] => []
  | x :: xs => insertByPriority x (sortByPriority xs)

/-- Embeds `NewKindling` from `kindling.go`: start from an empty registry,
sort the options by priority and apply them in order. -/
def newKindling (name : String) (opts : List OptionSpec) : KindlingState :=
  (sortByPriority opts).foldl (fun k o => applyOption o k) { transports := [], appName := name }

/-! ## Destination address normalisation, from `race_transport.go`.

`connectedRoundTripper` takes `addr := req.URL.Host`; if
`net.SplitHostPort(addr)` fails it appends a port with
`net.JoinHostPort(addr, "443")` for https and `net.JoinHostPort(addr, "80")`
otherwise.  `splitHostPort` and `joinHostPort` below are faithful
embeddings of the Go standard library functions. -/

/-- Index of the first occurrence of a character in a character list. -/
def idxOf (c : Char) : List Char → Option Nat
  | [] => none
  | x :: xs => if x = c then some 0 else (idxOf c xs).map (· + 1)

/-- Index of the last occurrence of a character (Go's `last` helper in
`net.SplitHostPort`). -/
def lastIdxOf (c : Char) (l : List Char) : Option Nat :=
  match idxOf c l.reverse with
  | none => none
  | some j => some (l.length - 1 - j)

/-- Embeds `net.SplitHostPort` from the Go standard library; `none` stands
for any of its error returns (missing port, too many colons, missing or
unexpected brackets). -/
def splitHostPort (hostport : String) : Option (String × String) :=
  let cs := hostport.data
  match lastIdxOf ':' cs with
  | none => none
  | some i =>
    let stage :=
      if cs.head? = some '[' then
        match idxOf ']' cs with
        | none => none
        | some e =>
          if e + 1 = cs.length then none
          else if e + 1 = i then some ((cs.drop 1).take (e - 1), 1, e + 1)
          else none
      else
        let host := cs.take i
        if (idxOf ':' host).isSome then none
        else some (host, 0, 0)
    match stage with
    | none => none
    | some (host, j, k) =>
      if (idxOf '[' (cs.drop j)).isSome then none
      else if (idxOf ']' (cs.drop k)).isSome then none
      else some (String.mk host, String.mk (cs.drop (i + 1)))

/-- Embeds `net.JoinHostPort` from the Go standard library: brackets the
host when it contains a colon. -/
def joinHostPort (host port : String) : String :=
  if (idxOf ':' host.data).isSome then "[" ++ host ++ "]:" ++ port
  else host ++ ":" ++ port

/-- Embeds the address normalisation of
`raceTransport.connectedRoundTripper` in `race_transport.go`. -/
def normalizeAddr (host scheme : String) : String :=
  if (splitHostPort host).isSome then host
  else if scheme = "https" then joinHostPort host "443"
  else joinHostPort host "80"

/-! ## Race engine, modelled from the spec.

The `race_transport.go` that matches the registry version above (the one
whose `RoundTrip` gates transports on `MaxLength`, clones requests with
`X-Kindling` headers and computes an 80 s / 180 s deadline) is not among
the source files; only its tests (`race_transport_test.go`, which calls a
four-argument `cloneRequest`) and its caller
(`newRaceTransport(k.appName, k.panicListener, k.transports...)` in
`kindling.go`) are.  The definitions below are therefore modelled from the
specification, sections 4.2, 4.3, 5 and 7. -/

/-- Result of sending the cloned request over a connected round-tripper:
an HTTP response with a status code, or a transport error. -/
inductive SendResult where
  | response (status : Nat)
  | sendFailed (msg : String)
deriving Repr, DecidableEq

/-- Outcome of one worker's `newRoundTripper` call in a given run: a
pre-connected round-tripper (together with the result its later send would
produce), a connect error, or a panic inside the transport. -/
inductive ConnectResult where
  | connected (send : SendResult)
  | connFailed (msg : String)
  | panicked (msg : String)
deriving Repr, DecidableEq

/-- A transport as seen by the race engine: its name, its declared
`maxLength` and the outcome its worker would produce in this run. -/
structure SpecTransport where
  name : String
  maxLength : Int
  connect : ConnectResult
deriving Repr, DecidableEq

/-- Outcome of a whole `RoundTrip` call: a response returned with a nil
error, a non-nil error, or the context's own error (deadline or caller
cancellation). -/
inductive Outcome where
  | resp (status : Nat)
  | err (msg : String)
  | ctxErr
deriving Repr, DecidableEq

/-- One atomic event of a run: a worker finishing its connect phase, the
context being cancelled, or the serial consumption loop taking one of its
three select arms (ready round-tripper, error channel, context done).  A
schedule is a list of actions; actions that cannot fire in the current
state leave it unchanged, which models the select blocking on them. -/
inductive Action where
  | workerConnect (i : Nat)
  | cancelCtx
  | consumeReady
  | consumeErr
  | consumeCtxDone
deriving Repr, DecidableEq

/-- Modelled from the spec: the per-request run state of `RoundTrip`
(section 3): the pending worker indices, the FIFO contents of `readyChan`
and `errChan`, the atomic `errorCount`, the retained `lastResponse`, the
messages delivered to the panic listener, the number of consumption-loop
iterations performed, the cancellation flag and the final outcome once the
engine returns. -/
structure EngineState where
  pending : List Nat
  rtQueue : List Nat
  errQueue : List String
  errorCount : Nat
  lastResponse : Option Nat
  panicsSeen : List String
  itersUsed : Nat
  canceled : Bool
  result : Option Outcome
deriving Repr, DecidableEq

/-- Modelled from the spec: the terminal all-attempts-failed message,
"failed to connect to any dialer, last error: …" (section 4.2). -/
def terminalMsg (cause : String) : String :=
  "failed to connect to any dialer, last error: " ++ cause

/-- Modelled from the spec: the formatted message a recovered panic is
reported and surfaced with. -/
def panicMsg (cause : String) : String :=
  "panic in dialer: " ++ cause

/-- Modelled from the spec: the failure-accounting function of the race
engine (section 4.2): increment `errorCount`; if the new count equals the
number `n` of fanned-out workers, send the terminal error carrying the
last cause on `errChan`. -/
def errFuncN (n : Nat) (cause : String) (s : EngineState) : EngineState :=
  let c := s.errorCount + 1
  { s with
    errorCount := c
    errQueue := if c = n then s.errQueue ++ [terminalMsg cause] else s.errQueue }

/-- Modelled from the spec: the termination rule of the consumption loop
(section 4.2): once all `n` iterations are used and no outcome was
produced, return `lastResponse` with a nil error if one was retained, else
the generic failure error. -/
def finalizeIfDone (n : Nat) (s : EngineState) : EngineState :=
  if s.itersUsed = n ∧ s.result = none then
    { s with
      result := some (match s.lastResponse with
        | some st => Outcome.resp st
        | none => Outcome.err "failed to get response") }
  else s

/-- Modelled from the spec: whether the fan-out skips a transport
(section 4.2): skip iff `maxLength > 0 ∧ len(bodyBytes) > maxLength`. -/
def skipsTransport (bodyLen : Nat) (t : SpecTransport) : Bool :=
  decide (0 < t.maxLength ∧ t.maxLength < (bodyLen : Int))

/-- Modelled from the spec: the transports for which the fan-out spawns a
connect worker. -/
def fannedOut (ts : List SpecTransport) (bodyLen : Nat) : List SpecTransport :=
  ts.filter (fun t => !skipsTransport bodyLen t)

/-- Modelled from the spec: one atomic step of the race engine over the
fanned-out transports (sections 4.2, 5 and 7).  A finished worker either
publishes its ready round-tripper, accounts a connect failure through
`errFuncN`, accounts a cancellation observed before publishing through the
same path, or — on a recovered panic — reports to the panic listener and
sends the same message on `errChan` without touching `errorCount`.  A
consumption-loop arm fires only while iterations remain and no outcome is
set: the ready arm sends the per-attempt clone and returns a `< 400`
response immediately, retains a `≥ 400` response as `lastResponse` and
accounts a failure, or accounts a send error; the error arm returns the
front of `errChan`; the context arm returns the context error. -/
def engineStep (fanned : List SpecTransport) (s : EngineState) (a : Action) : EngineState :=
  let n := fanned.length
  if s.result.isSome then s else
  match a with
  | .workerConnect i =>
    if s.pending.contains i then
      let s1 := { s with pending := s.pending.erase i }
      match fanned.get? i with
      | some t =>
        match t.connect with
        | .connected _ =>
          if s1.canceled then errFuncN n "context canceled" s1
          else { s1 with rtQueue := s1.rtQueue ++ [i] }
        | .connFailed m => errFuncN n m s1
        | .panicked m =>
          { s1 with
            panicsSeen := s1.panicsSeen ++ [panicMsg m]
            errQueue := s1.errQueue ++ [panicMsg m] }
      | none => s1
    else s
  | .cancelCtx => { s with canceled := true }
  | .consumeReady =>
    if s.itersUsed < n then
      match s.rtQueue with
      | [] => s
      | i :: rest =>
        let s1 := { s with rtQueue := rest, itersUsed := s.itersUsed + 1 }
        match fanned.get? i with
        | some t =>
          match t.connect with
          | .connected (.response st) =>
            if st < 400 then { s1 with result := some (.resp st) }
            else
              finalizeIfDone n
                (errFuncN n ("received status: " ++ toString st)
                  { s1 with lastResponse := some st })
          | .connected (.sendFailed m) => finalizeIfDone n (errFuncN n m s1)
          | _ => finalizeIfDone n s1
        | none => finalizeIfDone n s1
    else s
  | .consumeErr =>
    if s.itersUsed < n then
      match s.errQueue with
      | [] => s
      | e :: rest =>
        { s with errQueue := rest, itersUsed := s.itersUsed + 1, result := some (.err e) }
    else s
  | .consumeCtxDone =>
    if s.itersUsed < n then
      if s.canceled then { s with itersUsed := s.itersUsed + 1, result := some .ctxErr }
      else s
    else s

/-- Modelled from the spec: the state of the race engine right after
fan-out, before any worker has completed: one pending worker per
fanned-out transport and empty channels.  When there are no fanned-out
workers the consumption loop runs zero times, so the termination rule
applies immediately. -/
def initState (fanned : List SpecTransport) : EngineState :=
  finalizeIfDone fanned.length
    { pending := List.range fanned.length
      rtQueue := []
      errQueue := []
      errorCount := 0
      lastResponse := none
      panicsSeen := []
      itersUsed := 0
      canceled := false
      result := none }

/-- Modelled from the spec: a whole run of the race engine over a schedule
of atomic events. -/
def runEngine (fanned : List SpecTransport) (sched : List Action) : EngineState :=
  sched.foldl (engineStep fanned) (initState fanned)

/-- Modelled from the spec: `RoundTrip` restricted to the concerns of the
claims — fan-out over the `maxLength`-gated transports followed by the
scheduled run of workers and the serial consumption loop. -/
def roundTrip (ts : List SpecTransport) (bodyLen : Nat) (sched : List Action) : EngineState :=
  runEngine (fannedOut ts bodyLen) sched

/-- Modelled from the spec: the per-RoundTrip timeout in seconds
(sections 4.2 and 5): 80 when Content-Length is absent or zero, 180
otherwise. -/
def roundTripTimeoutSeconds (contentLength : Option Nat) : Nat :=
  match contentLength with
  | none => 80
  | some 0 => 80
  | some _ => 180

/-! ## Request cloner, modelled from the spec (section 4.3).

The four-argument `cloneRequest(req, appName, transportName, bodyBytes)`
exercised by `race_transport_test.go` is not among the source files; it is
modelled from the spec.  A request carries a method, a URL (scheme and
host), an ordered multi-set of headers (Go's `Header.Add` appends a value
to a key, so headers are an ordered association list), and a body. -/

/-- A request body: Go `nil`, the `http.NoBody` sentinel, or a reader over
a byte buffer. -/
inductive Body where
  | nilBody
  | noBody
  | bytes (data : List Nat)
deriving Repr, DecidableEq

structure Request where
  method : String
  scheme : String
  host : String
  headers : List (String × String)
  body : Body
deriving Repr, DecidableEq

/-- All values carried by a header key, in order. -/
def headerValues (hs : List (String × String)) (k : String) : List String :=
  (hs.filter (fun kv => kv.1 = k)).map (fun kv => kv.2)

/-- Modelled from the spec: `cloneRequest(req, appName, transportName,
bodyBytes)` — an independent request sharing the original URL and method,
with its own header map to which `X-Kindling-App = appName` and
`X-Kindling-Method = transportName` are appended without overwriting prior
values, and its own body reader over the pre-buffered bytes; a `nil` or
`http.NoBody` body is left as that sentinel. -/
def cloneRequest (req : Request) (appName transportName : String) (bodyBytes : List Nat) : Request :=
  { req with
    headers := req.headers ++ [("X-Kindling-App", appName), ("X-Kindling-Method", transportName)]
    body :=
      match req.body with
      | .nilBody => .nilBody
      | .noBody => .noBody
      | .bytes _ => .bytes bodyBytes }

/-- A sequence of failure accountings through `errFuncN`, in temporal
order: what the atomic `errorCount` and `errChan` go through as connect
and send failures accumulate during one run. -/
def errFold (n : Nat) (ms : List String) (s : EngineState) : EngineState :=
  ms.foldl (fun s m => errFuncN n m s) s

/-! ## Helper lemmas -/

theorem finalizeIfDone_pending (n : Nat) (s : EngineState) :
    (finalizeIfDone n s).pending = s.pending := by
  unfold finalizeIfDone; split <;> rfl

theorem finalizeIfDone_lastResponse (n : Nat) (s : EngineState) :
    (finalizeIfDone n s).lastResponse = s.lastResponse := by
  unfold finalizeIfDone; split <;> rfl

theorem finalizeIfDone_errorCount (n : Nat) (s : EngineState) :
    (finalizeIfDone n s).errorCount = s.errorCount := by
  unfold finalizeIfDone; split <;> rfl

theorem finalizeIfDone_itersUsed (n : Nat) (s : EngineState) :
    (finalizeIfDone n s).itersUsed = s.itersUsed := by
  unfold finalizeIfDone; split <;> rfl

theorem finalizeIfDone_rtQueue (n : Nat) (s : EngineState) :
    (finalizeIfDone n s).rtQueue = s.rtQueue := by
  unfold finalizeIfDone; split <;> rfl

theorem finalizeIfDone_result_lt (n : Nat) (s : EngineState) (h : s.itersUsed ≠ n) :
    (finalizeIfDone n s).result = s.result := by
  unfold finalizeIfDone
  split
  case isTrue hc => exact absurd hc.1 h
  case isFalse => rfl

theorem finalizeIfDone_result_done (n : Nat) (s : EngineState) (st : Nat)
    (hit : s.itersUsed = n) (hres : s.result = none) (hlast : s.lastResponse = some st) :
    (finalizeIfDone n s).result = some (.resp st) := by
  unfold finalizeIfDone
  rw [if_pos ⟨hit, hres⟩, hlast]

theorem errFuncN_errorCount (n : Nat) (m : String) (s : EngineState) :
    (errFuncN n m s).errorCount = s.errorCount + 1 := rfl

theorem errFuncN_lastResponse (n : Nat) (m : String) (s : EngineState) :
    (errFuncN n m s).lastResponse = s.lastResponse := rfl

theorem errFuncN_itersUsed (n : Nat) (m : String) (s : EngineState) :
    (errFuncN n m s).itersUsed = s.itersUsed := rfl

theorem errFuncN_rtQueue (n : Nat) (m : String) (s : EngineState) :
    (errFuncN n m s).rtQueue = s.rtQueue := rfl

theorem errFuncN_result (n : Nat) (m : String) (s : EngineState) :
    (errFuncN n m s).result = s.result := rfl

theorem errFuncN_errQueue_ne (n : Nat) (m : String) (s : EngineState)
    (h : s.errorCount + 1 ≠ n) : (errFuncN n m s).errQueue = s.errQueue := by
  unfold errFuncN
  simp [h]

theorem errFuncN_errQueue_eq (n : Nat) (m : String) (s : EngineState)
    (h : s.errorCount + 1 = n) :
    (errFuncN n m s).errQueue = s.errQueue ++ [terminalMsg m] := by
  unfold errFuncN
  simp [h]

theorem errFold_errorCount (n : Nat) (ms : List String) :
    ∀ s, (errFold n ms s).errorCount = s.errorCount + ms.length := by
  induction ms with
  | nil => intro s; simp [errFold]
  | cons m rest ih =>
    intro s
    have h1 : errFold n (m :: rest) s = errFold n rest (errFuncN n m s) := rfl
    rw [h1, ih, errFuncN_errorCount]
    simp
    omega

theorem errFold_queue_high (n : Nat) (ms : List String) :
    ∀ s, n ≤ s.errorCount → (errFold n ms s).errQueue = s.errQueue := by
  induction ms with
  | nil => intro s _; rfl
  | cons m rest ih =>
    intro s h
    have h1 : errFold n (m :: rest) s = errFold n rest (errFuncN n m s) := rfl
    rw [h1, ih (errFuncN n m s) (by rw [errFuncN_errorCount]; omega),
      errFuncN_errQueue_ne n m s (by omega)]

theorem errFold_queue_low (n : Nat) (ms : List String) :
    ∀ s, s.errorCount + ms.length < n → (errFold n ms s).errQueue = s.errQueue := by
  induction ms with
  | nil => intro s _; rfl
  | cons m rest ih =>
    intro s h
    simp only [List.length_cons] at h
    have h1 : errFold n (m :: rest) s = errFold n rest (errFuncN n m s) := rfl
    rw [h1, ih (errFuncN n m s) (by rw [errFuncN_errorCount]; omega),
      errFuncN_errQueue_ne n m s (by omega)]

theorem errFold_queue_hit (n : Nat) :
    ∀ pre (m : String) post s, s.errorCount + pre.length + 1 = n →
      (errFold n (pre ++ m :: post) s).errQueue = s.errQueue ++ [terminalMsg m] := by
  intro pre
  induction pre with
  | nil =>
    intro m post s h
    simp only [List.length_nil, Nat.add_zero] at h
    have h1 : errFold n ([] ++ m :: post) s = errFold n post (errFuncN n m s) := rfl
    rw [h1, errFold_queue_high n post (errFuncN n m s) (by rw [errFuncN_errorCount]; omega),
      errFuncN_errQueue_eq n m s h]
  | cons u rest ih =>
    intro m post s h
    simp only [List.length_cons] at h
    have h1 : errFold n ((u :: rest) ++ m :: post) s
        = errFold n (rest ++ m :: post) (errFuncN n u s) := rfl
    rw [h1, ih m post (errFuncN n u s) (by rw [errFuncN_errorCount]; omega),
      errFuncN_errQueue_ne n u s (by omega)]

theorem engineStep_consumeErr_result (fanned : List SpecTransport) (s : EngineState)
    (e : String) (rest : List String) (hres : s.result = none)
    (hit : s.itersUsed < fanned.length) (hq : s.errQueue = e :: rest) :
    (engineStep fanned s .consumeErr).result = some (.err e) := by
  simp only [engineStep, hres, Option.isSome_none, Bool.false_eq_true, if_false, hq,
    if_pos hit]

theorem engineStep_itersUsed (fanned : List SpecTransport) (s : EngineState) (a : Action) :
    (engineStep fanned s a).itersUsed = s.itersUsed
    ∨ ((engineStep fanned s a).itersUsed = s.itersUsed + 1
        ∧ s.itersUsed < fanned.length) := by
  simp only [engineStep]
  repeat' split
  all_goals try exact Or.inl rfl
  all_goals refine Or.inr ⟨?_, by assumption⟩
  all_goals first
    | rfl
    | (rw [finalizeIfDone_itersUsed]; try rfl)

theorem engineStep_workerConnect_itersUsed (fanned : List SpecTransport) (s : EngineState)
    (i : Nat) : (engineStep fanned s (.workerConnect i)).itersUsed = s.itersUsed := by
  simp only [engineStep]
  repeat' split
  all_goals rfl

theorem engineStep_cancelCtx_itersUsed (fanned : List SpecTransport) (s : EngineState) :
    (engineStep fanned s .cancelCtx).itersUsed = s.itersUsed := by
  simp only [engineStep]
  split <;> rfl

theorem foldl_engineStep_itersUsed_le (fanned : List SpecTransport) (sched : List Action) :
    ∀ s : EngineState, s.itersUsed ≤ fanned.length →
      (sched.foldl (engineStep fanned) s).itersUsed ≤ fanned.length := by
  induction sched with
  | nil => exact fun s h => h
  | cons a rest ih =>
    intro s h
    refine ih (engineStep fanned s a) ?_
    rcases engineStep_itersUsed fanned s a with h1 | ⟨h1, h2⟩ <;> omega

theorem initState_itersUsed (fanned : List SpecTransport) :
    (initState fanned).itersUsed = 0 := by
  rw [initState, finalizeIfDone_itersUsed]

theorem applyOption_isSome (o : OptionSpec) (k : KindlingState)
    (h : k.transports.all Option.isSome = true) :
    (applyOption o k).transports.all Option.isSome = true := by
  cases o with
  | domainFronting f => cases f <;> simp [applyOption, List.all_append, h]
  | dnsTunnel d => cases d <;> simp [applyOption, List.all_append, h]
  | ampCache c => cases c <;> simp [applyOption, List.all_append, h]
  | transport t => cases t <;> simp [applyOption, List.all_append, h]
  | proxyless d => cases d <;> simp [applyOption, List.all_append, h]
  | logWriter => simpa [applyOption] using h
  | panicListener => simpa [applyOption] using h

theorem foldl_applyOption_isSome (opts : List OptionSpec) (k : KindlingState)
    (h : k.transports.all Option.isSome = true) :
    ((opts.foldl (fun k o => applyOption o k) k).transports.all Option.isSome) = true := by
  induction opts generalizing k with
  | nil => exact h
  | cons o rest ih => exact ih (applyOption o k) (applyOption_isSome o k h)

/-! ## Claims -/

/-- C4: for every request, the deadline derived in `RoundTrip` uses a
timeout of 80 seconds when the request's Content-Length is absent or zero,
and 180 seconds otherwise. -/
theorem claim_C4_timeout (cl : Option Nat) :
    ((cl = none ∨ cl = some 0) → roundTripTimeoutSeconds cl = 80)
    ∧ (∀ n, cl = some n → 0 < n → roundTripTimeoutSeconds cl = 180) := by
  constructor
  · rintro (rfl | rfl) <;> rfl
  · rintro n rfl hn
    match n, hn with
    | Nat.succ k, _ => rfl

/-- Witness for C4 at Content-Length absent and at Content-Length 5. -/
theorem claim_C4_timeout_witness :
    roundTripTimeoutSeconds none = 80 ∧ roundTripTimeoutSeconds (some 5) = 180 :=
  ⟨(claim_C4_timeout none).1 (Or.inl rfl),
   (claim_C4_timeout (some 5)).2 5 rfl (by decide)⟩

/-- C10: applying `WithDomainFronting`, `WithDNSTunnel` or `WithAMPCache`
with a nil collaborator, or `WithTransport` with a nil transport, leaves
the client state unchanged, and the registry of a constructed client never
contains a nil transport entry. -/
theorem claim_C10_nil_options :
    (∀ k, applyOption (.domainFronting none) k = k)
    ∧ (∀ k, applyOption (.dnsTunnel none) k = k)
    ∧ (∀ k, applyOption (.ampCache none) k = k)
    ∧ (∀ k, applyOption (.transport none) k = k)
    ∧ (∀ name opts, ((newKindling name opts).transports.all Option.isSome) = true) := by
  refine ⟨fun k => rfl, fun k => rfl, fun k => rfl, fun k => rfl, fun name opts => ?_⟩
  exact foldl_applyOption_isSome (sortByPriority opts) _ rfl

/-- C9 evaluation: for the IPv6 literal URL host "[::1]" (which lacks a
port) with scheme https, the address normalisation of
`connectedRoundTripper` produces "[[::1]]:443" — `net.JoinHostPort`
wraps the already-bracketed host in a second pair of brackets — instead
of the host with ":443" appended; the produced address still fails the
very `net.SplitHostPort` check the code uses to detect a missing port.
The ordinary cases of the claim hold. -/
theorem claim_C9_normalize_eval :
    normalizeAddr "[::1]" "https" = "[[::1]]:443"
    ∧ "[[::1]]:443" ≠ "[::1]:443"
    ∧ splitHostPort "[[::1]]:443" = none
    ∧ normalizeAddr "example.com" "https" = "example.com:443"
    ∧ normalizeAddr "example.com" "http" = "example.com:80"
    ∧ normalizeAddr "example.com:8443" "https" = "example.com:8443" := by
  refine ⟨by decide, by decide, by decide, by decide, by decide, by decide⟩

/-- C8 counterexample: at the empty registry and name "x" the code
returns the message "Could not find matching transport: x" (capital C,
from `fmt.Errorf` in `kindling.go` and asserted verbatim by
`TestKindling_ReplaceTransport`), which is not the message
"could not find matching transport: x" stated by the claim. -/
theorem claim_C8_counterexample :
    replaceTransport [] "x" 0 = Except.error ("Could not find matching transport: x")
    ∧ "Could not find matching transport: x" ≠ "could not find matching transport: x" :=
  ⟨rfl, by decide⟩

/-- C8 (amended to the error message the code produces): `ReplaceTransport`
substitutes the first transport whose name matches, preserving that
entry's name and maxLength and wrapping the supplied factory, leaves all
other entries and the ordering unchanged, succeeds exactly when some entry
has the given name, and otherwise fails with
"Could not find matching transport: <name>". -/
theorem claim_C8_replaceTransport (ts : List NamedTransport) (nm : String) (g : Nat) :
    ((∀ t ∈ ts, t.name ≠ nm) →
      replaceTransport ts nm g = .error ("Could not find matching transport: " ++ nm))
    ∧ (∀ pre t post, ts = pre ++ t :: post → (∀ u ∈ pre, u.name ≠ nm) → t.name = nm →
      replaceTransport ts nm g = .ok (pre ++ newTransport nm t.maxLength g :: post))
    ∧ ((∃ r, replaceTransport ts nm g = .ok r) ↔ ∃ t ∈ ts, t.name = nm) := by
  refine ⟨?_, ?_, ?_⟩
  · intro hnone
    induction ts with
    | nil => rfl
    | cons t rest ih =>
      have ht : t.name ≠ nm := hnone t (List.mem_cons_self t rest)
      have hrest : ∀ u ∈ rest, u.name ≠ nm := fun u hu => hnone u (List.mem_cons_of_mem t hu)
      simp only [replaceTransport, if_neg ht, ih hrest]
  · intro pre t post hts hpre hname
    subst hts
    induction pre with
    | nil => simp only [List.nil_append, replaceTransport, if_pos hname]
    | cons u rest ih =>
      have hu : u.name ≠ nm := hpre u (List.mem_cons_self u rest)
      have hrest : ∀ v ∈ rest, v.name ≠ nm := fun v hv => hpre v (List.mem_cons_of_mem u hv)
      simp only [List.cons_append, replaceTransport, if_neg hu]
      rw [show rest.append (t :: post) = rest ++ t :: post from rfl, ih hrest]
  · induction ts with
    | nil => simp [replaceTransport]
    | cons t rest ih =>
      by_cases ht : t.name = nm
      · simp [replaceTransport, if_pos ht, ht]
      · simp only [replaceTransport, if_neg ht]
        constructor
        · rintro ⟨r, hr⟩
          match hrec : replaceTransport rest nm g with
          | .ok r2 =>
            rcases ih.mp ⟨r2, hrec⟩ with ⟨u, hu, hun⟩
            exact ⟨u, List.mem_cons_of_mem t hu, hun⟩
          | .error e => rw [hrec] at hr; exact absurd hr (by simp)
        · rintro ⟨u, hu, hun⟩
          rcases List.mem_cons.mp hu with rfl | hu2
          · exact absurd hun ht
          · rcases ih.mpr ⟨u, hu2, hun⟩ with ⟨r2, hr2⟩
            exact ⟨t :: r2, by rw [hr2]⟩

/-- Witness for C8: in the registry [fronted, amp] the entry named "amp"
(maxLength 6000, generator 2) is replaced by one wrapping generator 9 with
name and maxLength preserved, and the entry named "fronted" and the
ordering are untouched. -/
theorem claim_C8_replaceTransport_witness :
    replaceTransport [newTransport "fronted" 0 1, newTransport "amp" 6000 2] "amp" 9
      = .ok [newTransport "fronted" 0 1, newTransport "amp" 6000 9] :=
  (claim_C8_replaceTransport [newTransport "fronted" 0 1, newTransport "amp" 6000 2] "amp" 9).2.1
    [newTransport "fronted" 0 1] (newTransport "amp" 6000 2) [] rfl (by decide) rfl

/-- C2: the per-attempt clone shares the original's URL (scheme and host)
and method, preserves every pre-existing header value (for every key, the
value list is unchanged except that the two diagnostic keys gain exactly
one appended value each), and appends exactly
`X-Kindling-App = appName` and `X-Kindling-Method = transportName`. -/
theorem claim_C2_cloneRequest (req : Request) (app tn : String) (bb : List Nat) :
    (cloneRequest req app tn bb).method = req.method
    ∧ (cloneRequest req app tn bb).scheme = req.scheme
    ∧ (cloneRequest req app tn bb).host = req.host
    ∧ (∀ k, k ≠ "X-Kindling-App" → k ≠ "X-Kindling-Method" →
        headerValues (cloneRequest req app tn bb).headers k = headerValues req.headers k)
    ∧ headerValues (cloneRequest req app tn bb).headers "X-Kindling-App"
        = headerValues req.headers "X-Kindling-App" ++ [app]
    ∧ headerValues (cloneRequest req app tn bb).headers "X-Kindling-Method"
        = headerValues req.headers "X-Kindling-Method" ++ [tn]
    ∧ (∀ kv ∈ req.headers, kv ∈ (cloneRequest req app tn bb).headers) := by
  refine ⟨rfl, rfl, rfl, ?_, ?_, ?_, ?_⟩
  · intro k h1 h2
    simp [cloneRequest, headerValues, List.filter_append, Ne.symm h1, Ne.symm h2]
  · simp [cloneRequest, headerValues, List.filter_append]
  · simp [cloneRequest, headerValues, List.filter_append]
  · intro kv h
    simp only [cloneRequest, List.mem_append]
    exact Or.inl h

/-- Witness for C2 at a concrete request with a pre-existing header,
including one pre-existing value under the diagnostic key itself. -/
theorem claim_C2_cloneRequest_witness :
    headerValues (cloneRequest
        { method := "POST", scheme := "https", host := "example.com",
          headers := [("Accept", "text/plain"), ("X-Kindling-App", "old")],
          body := .bytes [1, 2] } "myapp" "fronted" [1, 2]).headers "Accept"
      = headerValues [("Accept", "text/plain"), ("X-Kindling-App", "old")] "Accept"
    ∧ headerValues (cloneRequest
        { method := "POST", scheme := "https", host := "example.com",
          headers := [("Accept", "text/plain"), ("X-Kindling-App", "old")],
          body := .bytes [1, 2] } "myapp" "fronted" [1, 2]).headers "X-Kindling-App"
      = headerValues [("Accept", "text/plain"), ("X-Kindling-App", "old")] "X-Kindling-App"
          ++ ["myapp"] :=
  ⟨(claim_C2_cloneRequest
      { method := "POST", scheme := "https", host := "example.com",
        headers := [("Accept", "text/plain"), ("X-Kindling-App", "old")],
        body := .bytes [1, 2] } "myapp" "fronted" [1, 2]).2.2.2.1 "Accept"
      (by decide) (by decide),
   (claim_C2_cloneRequest
      { method := "POST", scheme := "https", host := "example.com",
        headers := [("Accept", "text/plain"), ("X-Kindling-App", "old")],
        body := .bytes [1, 2] } "myapp" "fronted" [1, 2]).2.2.2.2.1⟩

/-- C1: the fan-out of the race engine spawns workers exactly for the
transports surviving the maxLength gate; a transport with positive
maxLength is skipped (no worker spawned) whenever the buffered body is
strictly larger than its maxLength — in particular one byte over — and is
kept when the body length equals its maxLength. -/
theorem claim_C1_maxLength_gate (ts : List SpecTransport) (bodyLen : Nat) (t : SpecTransport)
    (hmem : t ∈ ts) (hpos : 0 < t.maxLength) :
    ((initState (fannedOut ts bodyLen)).pending = List.range (fannedOut ts bodyLen).length)
    ∧ (t.maxLength < (bodyLen : Int) → t ∉ fannedOut ts bodyLen)
    ∧ ((bodyLen : Int) = t.maxLength → t ∈ fannedOut ts bodyLen)
    ∧ ((bodyLen : Int) = t.maxLength + 1 → t ∉ fannedOut ts bodyLen) := by
  refine ⟨?_, ?_, ?_, ?_⟩
  · rw [initState, finalizeIfDone_pending]
  · intro hlt hin
    rcases List.mem_filter.mp hin with ⟨-, hf⟩
    rw [Bool.not_eq_eq_eq_not, Bool.not_true, skipsTransport, decide_eq_false_iff_not] at hf
    exact hf ⟨hpos, hlt⟩
  · intro heq
    exact List.mem_filter.mpr ⟨hmem, by
      rw [Bool.not_eq_eq_eq_not, Bool.not_true, skipsTransport, decide_eq_false_iff_not]
      rintro ⟨-, hlt⟩
      omega⟩
  · intro heq hin
    rcases List.mem_filter.mp hin with ⟨-, hf⟩
    rw [Bool.not_eq_eq_eq_not, Bool.not_true, skipsTransport, decide_eq_false_iff_not] at hf
    exact hf ⟨hpos, by omega⟩

/-- Witness for C1 at the "amp" transport (maxLength 6000, matching
`WithAMPCache` in `kindling.go`) and a body of 6001 bytes. -/
theorem claim_C1_maxLength_gate_witness :
    ((initState (fannedOut [⟨"amp", 6000, .connected (.response 200)⟩] 6001)).pending
        = List.range (fannedOut [⟨"amp", 6000, .connected (.response 200)⟩] 6001).length)
    ∧ ((6000 : Int) < ((6001 : Nat) : Int) →
        (⟨"amp", 6000, .connected (.response 200)⟩ : SpecTransport)
          ∉ fannedOut [⟨"amp", 6000, .connected (.response 200)⟩] 6001)
    ∧ (((6001 : Nat) : Int) = 6000 →
        (⟨"amp", 6000, .connected (.response 200)⟩ : SpecTransport)
          ∈ fannedOut [⟨"amp", 6000, .connected (.response 200)⟩] 6001)
    ∧ (((6001 : Nat) : Int) = 6000 + 1 →
        (⟨"amp", 6000, .connected (.response 200)⟩ : SpecTransport)
          ∉ fannedOut [⟨"amp", 6000, .connected (.response 200)⟩] 6001) :=
  claim_C1_maxLength_gate [⟨"amp", 6000, .connected (.response 200)⟩] 6001
    ⟨"amp", 6000, .connected (.response 200)⟩ (List.mem_singleton.mpr rfl) (by decide)

/-- C3: consuming a connection whose send yields a status `≥ 400` does not
return that response immediately: it is retained as `lastResponse`, a
failure is accounted, and the loop continues — unless this was the last
permitted iteration, in which case the retained response is returned with
a nil error; and in general, when the loop ends with a retained
`lastResponse` and no better outcome, that response is the result. -/
theorem claim_C3_retryable_status (fanned : List SpecTransport) (s : EngineState)
    (i : Nat) (rest : List Nat) (t : SpecTransport) (st : Nat)
    (hres : s.result = none) (hit : s.itersUsed < fanned.length)
    (hq : s.rtQueue = i :: rest) (hg : fanned.get? i = some t)
    (hc : t.connect = .connected (.response st)) (hst : 400 ≤ st) :
    ((engineStep fanned s .consumeReady).lastResponse = some st)
    ∧ ((engineStep fanned s .consumeReady).errorCount = s.errorCount + 1)
    ∧ ((engineStep fanned s .consumeReady).rtQueue = rest)
    ∧ ((engineStep fanned s .consumeReady).itersUsed = s.itersUsed + 1)
    ∧ (s.itersUsed + 1 < fanned.length → (engineStep fanned s .consumeReady).result = none)
    ∧ (s.itersUsed + 1 = fanned.length →
        (engineStep fanned s .consumeReady).result = some (.resp st))
    ∧ (∀ s2 : EngineState, s2.result = none → s2.itersUsed = fanned.length →
        s2.lastResponse = some st →
        (finalizeIfDone fanned.length s2).result = some (.resp st)) := by
  have hstep : engineStep fanned s .consumeReady
      = finalizeIfDone fanned.length
          (errFuncN fanned.length ("received status: " ++ toString st)
            { s with rtQueue := rest, itersUsed := s.itersUsed + 1,
                     lastResponse := some st }) := by
    simp only [engineStep, hres, Option.isSome_none, Bool.false_eq_true, if_false, hq, hg, hc,
      if_pos hit, if_neg (show ¬ st < 400 by omega)]
  refine ⟨?_, ?_, ?_, ?_, ?_, ?_, ?_⟩
  · rw [hstep, finalizeIfDone_lastResponse, errFuncN_lastResponse]
  · rw [hstep, finalizeIfDone_errorCount, errFuncN_errorCount]
  · rw [hstep, finalizeIfDone_rtQueue, errFuncN_rtQueue]
  · rw [hstep, finalizeIfDone_itersUsed, errFuncN_itersUsed]
  · intro h
    rw [hstep, finalizeIfDone_result_lt _ _
      (by rw [errFuncN_itersUsed]; show s.itersUsed + 1 ≠ fanned.length; omega), errFuncN_result]
    exact hres
  · intro h
    rw [hstep]
    exact finalizeIfDone_result_done _ _ st (by rw [errFuncN_itersUsed]; exact h)
      (by rw [errFuncN_result]; exact hres) (by rw [errFuncN_lastResponse])
  · exact fun s2 h1 h2 h3 => finalizeIfDone_result_done _ s2 st h2 h1 h3

/-- Witness for C3: two fanned-out transports, the first connection's send
returns 503 on the first loop iteration. -/
theorem claim_C3_retryable_status_witness :
    ((engineStep [⟨"a", 0, .connected (.response 503)⟩, ⟨"b", 0, .connected (.response 503)⟩]
        { pending := [1], rtQueue := [0], errQueue := [], errorCount := 0,
          lastResponse := none, panicsSeen := [], itersUsed := 0, canceled := false,
          result := none } .consumeReady).lastResponse = some 503)
    ∧ ((engineStep [⟨"a", 0, .connected (.response 503)⟩, ⟨"b", 0, .connected (.response 503)⟩]
        { pending := [1], rtQueue := [0], errQueue := [], errorCount := 0,
          lastResponse := none, panicsSeen := [], itersUsed := 0, canceled := false,
          result := none } .consumeReady).errorCount = 0 + 1)
    ∧ ((engineStep [⟨"a", 0, .connected (.response 503)⟩, ⟨"b", 0, .connected (.response 503)⟩]
        { pending := [1], rtQueue := [0], errQueue := [], errorCount := 0,
          lastResponse := none, panicsSeen := [], itersUsed := 0, canceled := false,
          result := none } .consumeReady).rtQueue = [])
    ∧ ((engineStep [⟨"a", 0, .connected (.response 503)⟩, ⟨"b", 0, .connected (.response 503)⟩]
        { pending := [1], rtQueue := [0], errQueue := [], errorCount := 0,
          lastResponse := none, panicsSeen := [], itersUsed := 0, canceled := false,
          result := none } .consumeReady).itersUsed = 0 + 1)
    ∧ (0 + 1 < 2 →
        (engineStep [⟨"a", 0, .connected (.response 503)⟩, ⟨"b", 0, .connected (.response 503)⟩]
        { pending := [1], rtQueue := [0], errQueue := [], errorCount := 0,
          lastResponse := none, panicsSeen := [], itersUsed := 0, canceled := false,
          result := none } .consumeReady).result = none)
    ∧ (0 + 1 = 2 →
        (engineStep [⟨"a", 0, .connected (.response 503)⟩, ⟨"b", 0, .connected (.response 503)⟩]
        { pending := [1], rtQueue := [0], errQueue := [], errorCount := 0,
          lastResponse := none, panicsSeen := [], itersUsed := 0, canceled := false,
          result := none } .consumeReady).result = some (.resp 503))
    ∧ (∀ s2 : EngineState, s2.result = none → s2.itersUsed = 2 →
        s2.lastResponse = some 503 → (finalizeIfDone 2 s2).result = some (.resp 503)) :=
  claim_C3_retryable_status
    [⟨"a", 0, .connected (.response 503)⟩, ⟨"b", 0, .connected (.response 503)⟩]
    { pending := [1], rtQueue := [0], errQueue := [], errorCount := 0,
      lastResponse := none, panicsSeen := [], itersUsed := 0, canceled := false,
      result := none }
    0 [] ⟨"a", 0, .connected (.response 503)⟩ 503
    rfl (by decide) rfl rfl rfl (by decide)

/-- C5: the serial consumption loop performs at most N iterations, where N
is the number of connect workers actually fanned out for the request (the
length of the maxLength-gated transport list, not a fixed constant), and
only the three select arms (ready round-tripper, error channel, context
done) consume iterations: worker completions and cancellation do not. -/
theorem claim_C5_loop_bound (ts : List SpecTransport) (bodyLen : Nat) (sched : List Action) :
    (roundTrip ts bodyLen sched).itersUsed ≤ (fannedOut ts bodyLen).length
    ∧ (∀ (s : EngineState) (i : Nat),
        (engineStep (fannedOut ts bodyLen) s (.workerConnect i)).itersUsed = s.itersUsed)
    ∧ (∀ s : EngineState,
        (engineStep (fannedOut ts bodyLen) s .cancelCtx).itersUsed = s.itersUsed) := by
  refine ⟨?_, fun s i => engineStep_workerConnect_itersUsed _ s i,
    fun s => engineStep_cancelCtx_itersUsed _ s⟩
  exact foldl_engineStep_itersUsed_le (fannedOut ts bodyLen) sched _
    (by rw [initState_itersUsed]; exact Nat.zero_le _)

/-- C6 counterexample: with a panicking transport and a second transport
whose connection would return 200, the schedule that delivers the panic
report first makes `RoundTrip` return the panic as its error — the race is
aborted while the other worker is still pending — and no failed attempt is
accounted (`errorCount` stays 0), contradicting the claim that a panic is
treated as one failed attempt rather than aborting the whole race. -/
theorem claim_C6_counterexample :
    (roundTrip [⟨"p", 0, .panicked "boom"⟩, ⟨"ok", 0, .connected (.response 200)⟩] 0
        [.workerConnect 0, .consumeErr]).result = some (.err "panic in dialer: boom")
    ∧ (roundTrip [⟨"p", 0, .panicked "boom"⟩, ⟨"ok", 0, .connected (.response 200)⟩] 0
        [.workerConnect 0, .consumeErr]).errorCount = 0
    ∧ (roundTrip [⟨"p", 0, .panicked "boom"⟩, ⟨"ok", 0, .connected (.response 200)⟩] 0
        [.workerConnect 0, .consumeErr]).pending = [1] := by
  refine ⟨by decide, by decide, by decide⟩

/-- C6 (amended): a worker panic is recovered — the engine itself does not
crash and continues in a well-defined state — its message is reported to
the configured panic listener and the same message is sent on the error
channel; but it is not accounted through the failure counter, and when the
consumption loop selects it from the error channel the engine returns it
as a terminal error, which can abort the race while other workers are
still pending. -/
theorem claim_C6_panic_recovery (fanned : List SpecTransport) (s : EngineState)
    (i : Nat) (t : SpecTransport) (m : String)
    (hres : s.result = none) (hpend : s.pending.contains i = true)
    (hg : fanned.get? i = some t) (hc : t.connect = .panicked m) :
    ((engineStep fanned s (.workerConnect i)).panicsSeen = s.panicsSeen ++ [panicMsg m])
    ∧ ((engineStep fanned s (.workerConnect i)).errQueue = s.errQueue ++ [panicMsg m])
    ∧ ((engineStep fanned s (.workerConnect i)).errorCount = s.errorCount)
    ∧ ((engineStep fanned s (.workerConnect i)).result = none)
    ∧ (∀ (s2 : EngineState) (rest : List String), s2.result = none →
        s2.itersUsed < fanned.length → s2.errQueue = panicMsg m :: rest →
        (engineStep fanned s2 .consumeErr).result = some (.err (panicMsg m))) := by
  have hstep : engineStep fanned s (.workerConnect i)
      = { s with pending := s.pending.erase i,
                 panicsSeen := s.panicsSeen ++ [panicMsg m],
                 errQueue := s.errQueue ++ [panicMsg m] } := by
    simp only [engineStep, hres, Option.isSome_none, Bool.false_eq_true, if_false, hpend,
      if_true, hg, hc]
  refine ⟨?_, ?_, ?_, ?_, ?_⟩
  · rw [hstep]
  · rw [hstep]
  · rw [hstep]
  · rw [hstep]; exact hres
  · exact fun s2 rest h1 h2 h3 => engineStep_consumeErr_result fanned s2 _ rest h1 h2 h3

/-- Witness for C6 (amended) at a concrete mid-run state. -/
theorem claim_C6_panic_recovery_witness :
    ((engineStep [⟨"p", 0, .panicked "boom"⟩, ⟨"ok", 0, .connected (.response 200)⟩]
        { pending := [0, 1], rtQueue := [], errQueue := [], errorCount := 0,
          lastResponse := none, panicsSeen := [], itersUsed := 0, canceled := false,
          result := none } (.workerConnect 0)).panicsSeen = [] ++ [panicMsg "boom"])
    ∧ ((engineStep [⟨"p", 0, .panicked "boom"⟩, ⟨"ok", 0, .connected (.response 200)⟩]
        { pending := [0, 1], rtQueue := [], errQueue := [], errorCount := 0,
          lastResponse := none, panicsSeen := [], itersUsed := 0, canceled := false,
          result := none } (.workerConnect 0)).errQueue = [] ++ [panicMsg "boom"])
    ∧ ((engineStep [⟨"p", 0, .panicked "boom"⟩, ⟨"ok", 0, .connected (.response 200)⟩]
        { pending := [0, 1], rtQueue := [], errQueue := [], errorCount := 0,
          lastResponse := none, panicsSeen := [], itersUsed := 0, canceled := false,
          result := none } (.workerConnect 0)).errorCount = 0)
    ∧ ((engineStep [⟨"p", 0, .panicked "boom"⟩, ⟨"ok", 0, .connected (.response 200)⟩]
        { pending := [0, 1], rtQueue := [], errQueue := [], errorCount := 0,
          lastResponse := none, panicsSeen := [], itersUsed := 0, canceled := false,
          result := none } (.workerConnect 0)).result = none)
    ∧ (∀ (s2 : EngineState) (rest : List String), s2.result = none →
        s2.itersUsed < 2 → s2.errQueue = panicMsg "boom" :: rest →
        (engineStep [⟨"p", 0, .panicked "boom"⟩, ⟨"ok", 0, .connected (.response 200)⟩]
          s2 .consumeErr).result = some (.err (panicMsg "boom"))) :=
  claim_C6_panic_recovery
    [⟨"p", 0, .panicked "boom"⟩, ⟨"ok", 0, .connected (.response 200)⟩]
    { pending := [0, 1], rtQueue := [], errQueue := [], errorCount := 0,
      lastResponse := none, panicsSeen := [], itersUsed := 0, canceled := false,
      result := none }
    0 ⟨"p", 0, .panicked "boom"⟩ "boom" rfl (by decide) rfl rfl

/-- C7: along any sequence of failure accountings starting from the clean
per-request state, the terminal all-attempts-failed error is placed on the
error channel exactly when the failure count reaches the number N of
fanned-out workers — no terminal error exists while fewer than N failures
have been accounted — and it echoes the cause of the N-th (last) failure;
when the loop selects the error channel, that error is returned to the
caller. -/
theorem claim_C7_all_attempts_failed (n : Nat) (ms : List String) (s0 : EngineState)
    (hc0 : s0.errorCount = 0) (hq0 : s0.errQueue = []) :
    ((errFold n ms s0).errorCount = ms.length)
    ∧ (ms.length < n → (errFold n ms s0).errQueue = [])
    ∧ (∀ pre (m : String) post, ms = pre ++ m :: post → pre.length + 1 = n →
        (errFold n ms s0).errQueue = [terminalMsg m])
    ∧ (∀ (fanned : List SpecTransport) (s : EngineState) (e : String) (rest : List String),
        s.result = none → s.itersUsed < fanned.length → s.errQueue = e :: rest →
        (engineStep fanned s .consumeErr).result = some (.err e)) := by
  refine ⟨?_, ?_, ?_, ?_⟩
  · rw [errFold_errorCount, hc0, Nat.zero_add]
  · intro h
    rw [errFold_queue_low n ms s0 (by omega), hq0]
  · intro pre m post hms hn
    subst hms
    rw [errFold_queue_hit n pre m post s0 (by omega), hq0, List.nil_append]
  · exact fun fanned s e rest h1 h2 h3 => engineStep_consumeErr_result fanned s e rest h1 h2 h3

/-- Witness for C7: two fanned-out workers, three accounted failures
"e1", "e2", "e3": the terminal error fires at the second failure and
carries its cause, and the loop returns the front of the error channel. -/
theorem claim_C7_all_attempts_failed_witness :
    ((errFold 2 ["e1", "e2", "e3"]
        { pending := [], rtQueue := [], errQueue := [], errorCount := 0,
          lastResponse := none, panicsSeen := [], itersUsed := 0, canceled := false,
          result := none }).errorCount = 3)
    ∧ ((errFold 2 ["e1", "e2", "e3"]
        { pending := [], rtQueue := [], errQueue := [], errorCount := 0,
          lastResponse := none, panicsSeen := [], itersUsed := 0, canceled := false,
          result := none }).errQueue = [terminalMsg "e2"])
    ∧ ((engineStep [⟨"a", 0, .connFailed "e1"⟩]
        { pending := [], rtQueue := [], errQueue := [terminalMsg "e2"], errorCount := 2,
          lastResponse := none, panicsSeen := [], itersUsed := 0, canceled := false,
          result := none } .consumeErr).result = some (.err (terminalMsg "e2"))) :=
  ⟨(claim_C7_all_attempts_failed 2 ["e1", "e2", "e3"]
      { pending := [], rtQueue := [], errQueue := [], errorCount := 0,
        lastResponse := none, panicsSeen := [], itersUsed := 0, canceled := false,
        result := none } rfl rfl).1,
   (claim_C7_all_attempts_failed 2 ["e1", "e2", "e3"]
      { pending := [], rtQueue := [], errQueue := [], errorCount := 0,
        lastResponse := none, panicsSeen := [], itersUsed := 0, canceled := false,
        result := none } rfl rfl).2.2.1 ["e1"] "e2" ["e3"] rfl rfl,
   (claim_C7_all_attempts_failed 2 ["e1", "e2", "e3"]
      { pending := [], rtQueue := [], errQueue := [], errorCount := 0,
        lastResponse := none, panicsSeen := [], itersUsed := 0, canceled := false,
        result := none } rfl rfl).2.2.2 [⟨"a", 0, .connFailed "e1"⟩]
      { pending := [], rtQueue := [], errQueue := [terminalMsg "e2"], errorCount := 2,
        lastResponse := none, panicsSeen := [], itersUsed := 0, canceled := false,
        result := none } (terminalMsg "e2") [] rfl (by decide) rfl⟩

end Kindling
